import Mathlib

/-
Verification of the real-time model retraining module
(`ml_retraining.py`, class `RealtimeModelRetrainer`).

The embedding below translates the retraining control loop into pure
Lean functions.  Effectful collaborators (database queries, file system,
scikit-learn training) are represented by explicit inputs:

  * numbers that Python holds in `float` are modelled as rationals (ℚ);
    where a claim hinges on specific float literals, the exact IEEE-754
    binary64 values of those literals are used (all float subtractions
    appearing in those claims are exact by the Sterbenz lemma, and float
    comparisons are always exact, so rational arithmetic on the rounded
    literals coincides with the float arithmetic the code performs);
  * the model artifact files (`churn_model.pkl`, `spending_model.pkl`,
    `scaler.pkl`) are modelled as optional file contents (`Option ℕ`,
    `none` = file absent);
  * the results of the database/training collaborators during one
    retraining cycle are packaged in a `CycleEnv` record.
-/

namespace MLRetraining

/-- One entry of `self.performance_history`: the dictionary
`{'accuracy': ..., 'mse': ...}` produced by `_validate_new_models` /
`_get_current_model_performance` (the `timestamp` and `samples_used`
fields play no role in any control decision and are omitted). -/
structure Perf where
  accuracy : ℚ
  mse : ℚ
deriving DecidableEq, Repr

/-- Constructor arguments of `RealtimeModelRetrainer.__init__`
(`min_new_samples`, `retrain_interval_hours`, `performance_threshold`,
`backup_models`); stored on `self` and never mutated. -/
structure Config where
  minNewSamples : ℕ
  retrainIntervalHours : ℕ
  performanceThreshold : ℚ
  backupModels : Bool

/-- Exact IEEE-754 binary64 value of the Python literal `0.05`
(the default `performance_threshold`). -/
def fp005 : ℚ := 3602879701896397 / 72057594037927936

/-- Exact IEEE-754 binary64 value of the Python literal `0.80`. -/
def fp080 : ℚ := 3602879701896397 / 4503599627370496

/-- Exact IEEE-754 binary64 value of the Python literal `0.85`. -/
def fp085 : ℚ := 7656119366529843 / 9007199254740992

/-- Exact IEEE-754 binary64 value of the Python literal `0.90`. -/
def fp090 : ℚ := 8106479329266893 / 9007199254740992

/-- Default constructor arguments of `RealtimeModelRetrainer.__init__`:
`min_new_samples=100`, `retrain_interval_hours=24`,
`performance_threshold=0.05`, `backup_models=True`. -/
def defaultConfig : Config :=
  { minNewSamples := 100
    retrainIntervalHours := 24
    performanceThreshold := fp005
    backupModels := true }

/-- Embedding of `RealtimeModelRetrainer._should_retrain` (ml_retraining.py,
lines 124-148).  The effectful readings are passed in explicitly:
`elapsedSeconds` is `(datetime.now() - self.last_retrain_time).total_seconds()`,
`newSamples` is the result of `self._count_new_samples()`, and `drift`
is the result of `self._detect_performance_drift()`.  The source returns
`False` when the elapsed time is below the interval, then `False` when
the new-sample count is below `min_new_samples`, then `True` when drift
is detected, and `True` in the remaining case. -/
def should_retrain (cfg : Config) (elapsedSeconds : ℚ) (newSamples : ℕ)
    (drift : Bool) : Bool :=
  if elapsedSeconds < ((cfg.retrainIntervalHours * 3600 : ℕ) : ℚ) then false
  else if newSamples < cfg.minNewSamples then false
  else if drift then true
  else true

/-- Embedding of `RealtimeModelRetrainer._should_deploy_new_models`
(ml_retraining.py, lines 515-547).  `thr` is `self.performance_threshold`.
The source computes `accuracy_improvement = new - old` and
`mse_improvement = old - new`, then returns `True` when the accuracy
improvement exceeds `thr`, `True` when the MSE improvement exceeds the
fixed margin `100`, `False` when the accuracy dropped by strictly more
than `thr`, `True` when the accuracy change is within `thr` in absolute
value, and `False` otherwise.  (The enclosing `try/except` can only fire
on malformed dictionaries and is not part of the pure data flow.) -/
def should_deploy_new_models (thr : ℚ) (old_perf new_perf : Perf) : Bool :=
  let accuracy_improvement := new_perf.accuracy - old_perf.accuracy
  let mse_improvement := old_perf.mse - new_perf.mse
  if accuracy_improvement > thr then true
  else if mse_improvement > 100 then true
  else if accuracy_improvement < -thr then false
  else if |accuracy_improvement| ≤ thr then true
  else false

/-- Contents of a model directory: the three artifact files
`churn_model.pkl`, `spending_model.pkl`, `scaler.pkl`.  A field is
`none` when the file does not exist; file contents (pickle bytes) are
abstracted as a natural number. -/
structure Artifacts where
  churnModel : Option ℕ
  spendingModel : Option ℕ
  scaler : Option ℕ
deriving DecidableEq, Repr

/-- One iteration of the loop in `RealtimeModelRetrainer._deploy_new_models`
(ml_retraining.py, lines 560-565) for a single file: if the file exists in
`temp_models`, `shutil.move` removes it from there and it replaces the
production file; otherwise nothing happens.  Returns the post-move
(temp file, production file) pair. -/
def move_model_file : Option ℕ → Option ℕ → Option ℕ × Option ℕ
  | some v, _ => (none, some v)
  | none, prodFile => (none, prodFile)

/-- Joint temp-directory / production-directory state during
`_deploy_new_models`. -/
structure DeployState where
  temp : Artifacts
  prod : Artifacts
deriving DecidableEq, Repr

/-- First iteration of the `_deploy_new_models` loop: moves
`churn_model.pkl` (the `model_files` list is iterated in the order
`['churn_model.pkl', 'spending_model.pkl', 'scaler.pkl']`). -/
def deploy_move_churn (s : DeployState) : DeployState :=
  let m := move_model_file s.temp.churnModel s.prod.churnModel
  { temp := { s.temp with churnModel := m.1 }
    prod := { s.prod with churnModel := m.2 } }

/-- Second iteration of the `_deploy_new_models` loop: moves
`spending_model.pkl`. -/
def deploy_move_spending (s : DeployState) : DeployState :=
  let m := move_model_file s.temp.spendingModel s.prod.spendingModel
  { temp := { s.temp with spendingModel := m.1 }
    prod := { s.prod with spendingModel := m.2 } }

/-- Third iteration of the `_deploy_new_models` loop: moves `scaler.pkl`. -/
def deploy_move_scaler (s : DeployState) : DeployState :=
  let m := move_model_file s.temp.scaler s.prod.scaler
  { temp := { s.temp with scaler := m.1 }
    prod := { s.prod with scaler := m.2 } }

/-- Embedding of `RealtimeModelRetrainer._deploy_new_models`
(ml_retraining.py, lines 549-573): the three per-file moves executed in
sequence.  (The final `self.predictor.load_models()` reload has no effect
on the directories.) -/
def deploy_new_models (s : DeployState) : DeployState :=
  deploy_move_scaler (deploy_move_spending (deploy_move_churn s))

/-- Embedding of `RealtimeModelRetrainer._backup_current_models`
(ml_retraining.py, lines 292-312): creates a backup directory named by
the current timestamp and copies every production artifact file that
exists into it.  Backup directory names are modelled as naturals `t`
ordered like the lexicographically sorted `models_%Y%m%d_%H%M%S` names.
Because a missing production file is simply not copied and the snapshot
records missing files as `none`, the snapshot equals the production
`Artifacts` value. -/
def backup_current_models (prod : Artifacts) (t : ℕ)
    (backups : List (ℕ × Artifacts)) : List (ℕ × Artifacts) :=
  backups ++ [(t, prod)]

/-- Selection `sorted(backup_dirs)[-1]` in
`RealtimeModelRetrainer._revert_to_backup` (ml_retraining.py, line 584):
the backup directory with the greatest name; on equal names the later
entry (Python's `sorted` is stable, so the last of the equals ends up
in final position). -/
def latest_backup : List (ℕ × Artifacts) → Option (ℕ × Artifacts)
  | [] => none
  | b :: bs => some (bs.foldl (fun acc x => if acc.1 ≤ x.1 then x else acc) b)

/-- Per-file restore step in `_revert_to_backup` (ml_retraining.py,
lines 591-596): a file present in the backup is copied over the
production file; a file absent from the backup leaves the production
file untouched. -/
def restore_file : Option ℕ → Option ℕ → Option ℕ
  | some b, _ => some b
  | none, prodFile => prodFile

/-- Embedding of `RealtimeModelRetrainer._revert_to_backup`
(ml_retraining.py, lines 575-604): if no backup exists the function only
logs and production is unchanged; otherwise each artifact file present
in the latest (greatest-named) backup is copied over production. -/
def revert_to_backup (backups : List (ℕ × Artifacts)) (prod : Artifacts) :
    Artifacts :=
  match latest_backup backups with
  | none => prod
  | some b =>
      { churnModel := restore_file b.2.churnModel prod.churnModel
        spendingModel := restore_file b.2.spendingModel prod.spendingModel
        scaler := restore_file b.2.scaler prod.scaler }

/-- Embedding of `RealtimeModelRetrainer._update_performance_history`
(ml_retraining.py, lines 606-612): append the new record, then keep only
the last 50 records (`self.performance_history[-50:]`) when the list has
grown beyond 50.  The subsequent JSON dump of the list (lines 614-629)
is persistence of the same value and carries no further logic. -/
def update_performance_history (history : List Perf) (performance : Perf) :
    List Perf :=
  let h := history ++ [performance]
  if 50 < h.length then h.drop (h.length - 50) else h

/-- Embedding of `RealtimeModelRetrainer._get_current_model_performance`
(ml_retraining.py, lines 429-438): the last history record, or the
default `{'accuracy': 0.5, 'mse': 1000}` when the history is empty. -/
def get_current_model_performance (history : List Perf) : Perf :=
  match history.getLast? with
  | some p => p
  | none => { accuracy := 1/2, mse := 1000 }

/-- Mutable state of a `RealtimeModelRetrainer` instance that the
retraining cycle reads or writes: `self.performance_history`,
`self.last_retrain_time`, plus the file-system state it owns (the
`models` production directory and the `model_backups` directory). -/
structure RetrainerState where
  performanceHistory : List Perf
  lastRetrainTime : ℚ
  production : Artifacts
  backups : List (ℕ × Artifacts)

/-- Results of the effectful collaborators during one execution of
`RealtimeModelRetrainer.retrain_models`:

  * `backupOk`: whether the file copies inside `_backup_current_models`
    succeed (on an exception the function logs and stores nothing);
  * `backupTime`: the timestamp used for the backup directory name;
  * `trainingDataLen`: `len(training_data)` for the extract returned by
    `_load_latest_training_data`;
  * `preparedLen`: `len(features_df)` for the feature table produced by
    `_prepare_features` inside `_train_new_models`;
  * `trainOk`: the result of `new_predictor.train_models_with_data`;
  * `candidate`: the artifact files written to `temp_models` by
    `_save_temp_models`;
  * `newPerf`: the metrics returned by `_validate_new_models`;
  * `now`: the value of `datetime.now()` stored into
    `self.last_retrain_time` on deploy. -/
structure CycleEnv where
  backupOk : Bool
  backupTime : ℕ
  trainingDataLen : ℕ
  preparedLen : ℕ
  trainOk : Bool
  candidate : Artifacts
  newPerf : Perf
  now : ℚ

/-- Which steps of one `retrain_models` call were executed, and its
boolean return value. -/
structure CycleResult where
  success : Bool
  deployed : Bool
  reverted : Bool
  trainingAttempted : Bool
deriving DecidableEq, Repr

/-- Embedding of `RealtimeModelRetrainer.retrain_models` (ml_retraining.py,
lines 246-290).  Control flow of the source:

  1. if `self.backup_models`, call `_backup_current_models` (its own
     exceptions are caught inside it; the cycle continues regardless);
  2. load the training extract; if it has fewer than 100 records, log
     and return `False`;
  3. read the current performance and call `_train_new_models` (which
     prepares features, requires at least 50 prepared rows, trains, and
     saves the candidate to `temp_models`); on failure return `False`;
  4. validate the candidate and ask `_should_deploy_new_models`;
  5. on a positive decision: `_deploy_new_models`,
     `_update_performance_history`, set `self.last_retrain_time`,
     return `True`; otherwise `_revert_to_backup` and return `False`. -/
def retrain_models (cfg : Config) (st : RetrainerState) (env : CycleEnv) :
    RetrainerState × CycleResult :=
  let backups1 :=
    if cfg.backupModels then
      if env.backupOk then
        backup_current_models st.production env.backupTime st.backups
      else st.backups
    else st.backups
  let st1 := { st with backups := backups1 }
  if env.trainingDataLen < 100 then
    (st1, { success := false, deployed := false, reverted := false
            trainingAttempted := false })
  else
    let old_performance := get_current_model_performance st1.performanceHistory
    if 50 ≤ env.preparedLen ∧ env.trainOk then
      let new_performance := env.newPerf
      if should_deploy_new_models cfg.performanceThreshold
          old_performance new_performance then
        ({ st1 with
            production :=
              (deploy_new_models
                { temp := env.candidate, prod := st1.production }).prod
            performanceHistory :=
              update_performance_history st1.performanceHistory
                new_performance
            lastRetrainTime := env.now },
         { success := true, deployed := true, reverted := false
           trainingAttempted := true })
      else
        ({ st1 with
            production := revert_to_backup st1.backups st1.production },
         { success := false, deployed := false, reverted := true
           trainingAttempted := true })
    else
      (st1, { success := false, deployed := false, reverted := false
              trainingAttempted := true })

/-- Control position of one thread with respect to the body of
`retrain_models`. -/
inductive ThreadPhase where
  | idle : ThreadPhase
  | inCycle : ThreadPhase
deriving DecidableEq, Repr

/-- Joint control state of the background monitoring thread
(`_monitoring_loop`, started by `start_monitoring`) and of a caller
thread invoking `force_retrain`. -/
structure ConcState where
  worker : ThreadPhase
  forcer : ThreadPhase
deriving DecidableEq, Repr

/-- Interleaving semantics of the two call sites of `retrain_models`.
`worker_enter` is `_monitoring_loop` reaching `self.retrain_models()`
(ml_retraining.py, line 115) after `_should_retrain()` returned `True`;
`force_enter` is `force_retrain` calling `self.retrain_models()`
(line 645), which it does unconditionally.  Neither call site acquires
any lock — the module creates no `threading.Lock` (its only threading
construct is the `threading.Thread` in `start_monitoring`) — so neither
entry step is guarded by the other thread's position.  The exit steps
are the returns from `retrain_models`. -/
inductive ConcStep : ConcState → ConcState → Prop where
  | worker_enter (c : ThreadPhase) :
      ConcStep ⟨ThreadPhase.idle, c⟩ ⟨ThreadPhase.inCycle, c⟩
  | worker_exit (c : ThreadPhase) :
      ConcStep ⟨ThreadPhase.inCycle, c⟩ ⟨ThreadPhase.idle, c⟩
  | force_enter (w : ThreadPhase) :
      ConcStep ⟨w, ThreadPhase.idle⟩ ⟨w, ThreadPhase.inCycle⟩
  | force_exit (w : ThreadPhase) :
      ConcStep ⟨w, ThreadPhase.inCycle⟩ ⟨w, ThreadPhase.idle⟩

/-- Retrainer state for the spec's deploy-decision scenario: the most
recent (and only) performance record has accuracy `0.85`, production
holds the three artifact files, and no backups exist yet. -/
def scenarioState : RetrainerState :=
  { performanceHistory := [{ accuracy := fp085, mse := 500 }]
    lastRetrainTime := 0
    production := { churnModel := some 10, spendingModel := some 11, scaler := some 12 }
    backups := [] }

/-- Collaborator results for a cycle whose candidate validates at
accuracy `0.80` with unchanged MSE: ample data, feature preparation and
training succeed. -/
def scenarioEnv080 : CycleEnv :=
  { backupOk := true
    backupTime := 1
    trainingDataLen := 200
    preparedLen := 100
    trainOk := true
    candidate := { churnModel := some 20, spendingModel := some 21, scaler := some 22 }
    newPerf := { accuracy := fp080, mse := 500 }
    now := 5 }

/-- Collaborator results identical to `scenarioEnv080` except that the
file copies inside `_backup_current_models` fail, and the candidate
validates at accuracy `1` (clearly above any baseline). -/
def scenarioEnvBackupFail : CycleEnv :=
  { backupOk := false
    backupTime := 1
    trainingDataLen := 200
    preparedLen := 100
    trainOk := true
    candidate := { churnModel := some 20, spendingModel := some 21, scaler := some 22 }
    newPerf := { accuracy := 1, mse := 500 }
    now := 5 }

/-- Retrainer state with accuracy baseline `0`, an empty backup store
and a populated production directory. -/
def scenarioStateLowBase : RetrainerState :=
  { performanceHistory := [{ accuracy := 0, mse := 500 }]
    lastRetrainTime := 0
    production := { churnModel := some 10, spendingModel := some 11, scaler := some 12 }
    backups := [] }

/-- Collaborator results for a cycle whose training extract has exactly
99 records. -/
def scenarioEnvSmall : CycleEnv :=
  { backupOk := true
    backupTime := 1
    trainingDataLen := 99
    preparedLen := 99
    trainOk := true
    candidate := { churnModel := some 20, spendingModel := some 21, scaler := some 22 }
    newPerf := { accuracy := 1, mse := 500 }
    now := 5 }

/-- Claim C1 (corrected claim): when the new-sample count is below
`min_new_samples`, `_should_retrain` returns `False` regardless of the
elapsed time and of what the performance-drift check would say — the
sample-count test precedes the drift test (line 138) and returns early,
so drift never independently triggers retraining. -/
theorem should_retrain_insufficient_samples (cfg : Config)
    (elapsedSeconds : ℚ) (newSamples : ℕ) (drift : Bool)
    (h : newSamples < cfg.minNewSamples) :
    should_retrain cfg elapsedSeconds newSamples drift = false := by
  simp [should_retrain, h]

/-- Witness for `should_retrain_insufficient_samples` at the default
configuration with 99 new samples. -/
theorem should_retrain_insufficient_samples_witness :
    99 < defaultConfig.minNewSamples
    ∧ should_retrain defaultConfig 0 99 true = false :=
  ⟨by decide, should_retrain_insufficient_samples defaultConfig 0 99 true (by decide)⟩

/-- Claim C1 counterexample: with the default configuration, elapsed
time exactly one full interval (86400 s, not below the 24 h gate),
99 new samples (below the minimum of 100) and the drift check returning
`True`, `_should_retrain` returns `False`, not `True` as claimed. -/
theorem should_retrain_drift_no_override_cex :
    ((defaultConfig.retrainIntervalHours * 3600 : ℕ) : ℚ) ≤ 86400
    ∧ 99 < defaultConfig.minNewSamples
    ∧ should_retrain defaultConfig 86400 99 true = false := by
  refine ⟨by norm_num [defaultConfig], by decide, ?_⟩
  have h : ¬ ((86400 : ℚ) < ((defaultConfig.retrainIntervalHours * 3600 : ℕ) : ℚ)) := by
    norm_num [defaultConfig]
  simp [should_retrain, h, defaultConfig]

/-- Characterization of the branch structure of
`_should_deploy_new_models` as a single proposition (helper shared by
several results below). -/
lemma should_deploy_new_models_eq_true_iff (thr : ℚ) (old_perf new_perf : Perf) :
    should_deploy_new_models thr old_perf new_perf = true ↔
      (new_perf.accuracy - old_perf.accuracy > thr
       ∨ old_perf.mse - new_perf.mse > 100
       ∨ (¬ (new_perf.accuracy - old_perf.accuracy < -thr)
          ∧ |new_perf.accuracy - old_perf.accuracy| ≤ thr)) := by
  simp only [should_deploy_new_models]
  split_ifs with h1 h2 h3 h4
  · simp [h1]
  · simp [h2]
  · simp [h1, h2, h3]
  · simp [h3, h4]
  · simp [h1, h2, h3, h4]

/-- Claim C10: whenever the candidate accuracy is within
`performance_threshold` of the baseline accuracy (in absolute value),
`_should_deploy_new_models` returns `True` whatever the two MSE values
are: an arbitrarily worse error metric cannot block deployment. -/
theorem should_deploy_within_threshold (thr : ℚ) (old_perf new_perf : Perf)
    (h : |new_perf.accuracy - old_perf.accuracy| ≤ thr) :
    should_deploy_new_models thr old_perf new_perf = true := by
  rw [should_deploy_new_models_eq_true_iff]
  exact Or.inr (Or.inr ⟨not_lt.mpr (abs_le.mp h).1, h⟩)

/-- Witness for `should_deploy_within_threshold`: equal accuracies with
an MSE that doubled from 1000 to 2000 still deploy. -/
theorem should_deploy_within_threshold_witness :
    |(Perf.mk 0 2000).accuracy - (Perf.mk 0 1000).accuracy| ≤ (1:ℚ)
    ∧ should_deploy_new_models 1 (Perf.mk 0 1000) (Perf.mk 0 2000) = true :=
  ⟨by simp, should_deploy_within_threshold 1 _ _ (by simp)⟩

/-- Claim C2 counterexample: with `performance_threshold = 0.05` (as the
IEEE-754 double the code holds), baseline accuracy `0.85`, unchanged MSE
and candidate accuracy `0.80`, `_should_deploy_new_models` returns
`True` — not `False` as claimed.  In double arithmetic
`0.80 - 0.85 = -0.04999999999999993` exactly (the subtraction of the two
rounded literals is exact by the Sterbenz lemma), which is not strictly
below `-0.05`, so the decision falls through to the within-threshold
branch and deploys. -/
theorem deploy_decision_080_cex :
    should_deploy_new_models fp005 (Perf.mk fp085 500) (Perf.mk fp080 500) = true := by
  rw [should_deploy_new_models_eq_true_iff]
  refine Or.inr (Or.inr ⟨?_, ?_⟩)
  · norm_num [fp080, fp085, fp005]
  · rw [abs_le]
    constructor <;> norm_num [fp080, fp085, fp005]

/-- Claim C2 (corrected claim): with `performanceThreshold = 0.05`,
unchanged MSE and baseline accuracy `0.85`, a candidate with accuracy
`0.90` is deployed, and a candidate with accuracy `0.80` is ALSO
deployed — the decision returns `True` for both, the cycle promotes the
`0.80` candidate, and restore-from-backup is not invoked.  The `0.80`
drop does not exceed the threshold strictly (neither in the code's
double arithmetic, where it computes as `-0.04999999999999993`, nor
under an exact-rational reading, where `-1/20 < -1/20` is false), so the
"within threshold" branch accepts it.  The third conjunct shows the same
verdict for the exact decimal rationals 4/5, 17/20, 1/20. -/
theorem deploy_decision_boundary :
    should_deploy_new_models fp005 (Perf.mk fp085 500) (Perf.mk fp090 500) = true
    ∧ should_deploy_new_models fp005 (Perf.mk fp085 500) (Perf.mk fp080 500) = true
    ∧ should_deploy_new_models (1/20) (Perf.mk (17/20) 500) (Perf.mk (4/5) 500) = true
    ∧ (retrain_models defaultConfig scenarioState scenarioEnv080).2.deployed = true
    ∧ (retrain_models defaultConfig scenarioState scenarioEnv080).2.reverted = false := by
  have hA : should_deploy_new_models fp005 (Perf.mk fp085 500) (Perf.mk fp090 500) = true := by
    rw [should_deploy_new_models_eq_true_iff]
    exact Or.inl (by norm_num [fp090, fp085, fp005])
  have hB : should_deploy_new_models fp005 (Perf.mk fp085 500) (Perf.mk fp080 500) = true := by
    rw [should_deploy_new_models_eq_true_iff]
    refine Or.inr (Or.inr ⟨?_, ?_⟩)
    · norm_num [fp080, fp085, fp005]
    · rw [abs_le]
      constructor <;> norm_num [fp080, fp085, fp005]
  have hC : should_deploy_new_models (1/20) (Perf.mk (17/20) 500) (Perf.mk (4/5) 500) = true := by
    rw [should_deploy_new_models_eq_true_iff]
    refine Or.inr (Or.inr ⟨?_, ?_⟩)
    · norm_num
    · rw [abs_le]
      constructor <;> norm_num
  have hD : (retrain_models defaultConfig scenarioState scenarioEnv080).2 =
      { success := true, deployed := true, reverted := false, trainingAttempted := true } := by
    simp [retrain_models, scenarioState, scenarioEnv080, defaultConfig,
      get_current_model_performance, hB]
  exact ⟨hA, hB, hC, by rw [hD], by rw [hD]⟩

/-- Claim C9 counterexample: the state in which both the background
monitoring thread and a `force_retrain` caller are inside the body of
`retrain_models` is reachable from the all-idle state (worker enters,
then the forcer enters: no step is blocked by the other thread, as the
code takes no lock), refuting "never both execute cycle bodies at the
same instant". -/
theorem no_mutual_exclusion_cex :
    ¬ (∀ s : ConcState,
        Relation.ReflTransGen ConcStep ⟨ThreadPhase.idle, ThreadPhase.idle⟩ s →
        ¬ (s.worker = ThreadPhase.inCycle ∧ s.forcer = ThreadPhase.inCycle)) := by
  intro h
  exact h ⟨ThreadPhase.inCycle, ThreadPhase.inCycle⟩
    (Relation.ReflTransGen.tail
      (Relation.ReflTransGen.single (ConcStep.worker_enter ThreadPhase.idle))
      (ConcStep.force_enter ThreadPhase.inCycle))
    ⟨rfl, rfl⟩

/-- Claim C9 (corrected claim): no mutual-exclusion guard exists.
`force_retrain` calls `retrain_models` directly and `_monitoring_loop`
does the same, with no lock anywhere in the module, so each thread can
enter the cycle body irrespective of the other thread's position, and
the state with both threads simultaneously inside the cycle body is
reachable from the all-idle state. -/
theorem concurrent_cycles_reachable :
    Relation.ReflTransGen ConcStep ⟨ThreadPhase.idle, ThreadPhase.idle⟩
      ⟨ThreadPhase.inCycle, ThreadPhase.inCycle⟩
    ∧ (∀ c, ConcStep ⟨ThreadPhase.idle, c⟩ ⟨ThreadPhase.inCycle, c⟩)
    ∧ (∀ w, ConcStep ⟨w, ThreadPhase.idle⟩ ⟨w, ThreadPhase.inCycle⟩) :=
  ⟨Relation.ReflTransGen.tail
      (Relation.ReflTransGen.single (ConcStep.worker_enter ThreadPhase.idle))
      (ConcStep.force_enter ThreadPhase.inCycle),
   fun c => ConcStep.worker_enter c,
   fun w => ConcStep.force_enter w⟩

/-- Claim C3 counterexample: a cycle with `backup_models = True` in
which the backup step fails (`backupOk = false`), data is ample,
training succeeds and the candidate clearly improves: the cycle deploys
the candidate and returns `True`, with the backup store still empty —
the candidate is promoted to production although no fresh backup exists,
refuting "the deploy step is skipped and the cycle reports failure". -/
theorem backup_failure_still_deploys_cex :
    defaultConfig.backupModels = true
    ∧ scenarioEnvBackupFail.backupOk = false
    ∧ (retrain_models defaultConfig scenarioStateLowBase scenarioEnvBackupFail).2.success = true
    ∧ (retrain_models defaultConfig scenarioStateLowBase scenarioEnvBackupFail).2.deployed = true
    ∧ (retrain_models defaultConfig scenarioStateLowBase scenarioEnvBackupFail).1.backups = []
    ∧ (retrain_models defaultConfig scenarioStateLowBase scenarioEnvBackupFail).1.production
        = scenarioEnvBackupFail.candidate := by
  have hdep : should_deploy_new_models fp005 (Perf.mk 0 500) (Perf.mk 1 500) = true := by
    rw [should_deploy_new_models_eq_true_iff]
    exact Or.inl (by norm_num [fp005])
  refine ⟨rfl, rfl, ?_, ?_, ?_, ?_⟩ <;>
    simp [retrain_models, scenarioStateLowBase, scenarioEnvBackupFail, defaultConfig,
      get_current_model_performance, hdep, deploy_new_models, deploy_move_churn,
      deploy_move_spending, deploy_move_scaler, move_model_file]

/-- Claim C3 (corrected claim): a failure of the backup step is caught
and logged inside `_backup_current_models` and never consulted by
`retrain_models`: the cycle's return value, deploy decision, performance
history and `last_retrain_time` are identical whether the backup
succeeded or failed — in particular deploy is NOT skipped and the cycle
does not fail on account of a failed backup (only the backup store
itself differs). -/
theorem cycle_independent_of_backup_outcome (cfg : Config)
    (st : RetrainerState) (env : CycleEnv) (b : Bool) :
    (retrain_models cfg st { env with backupOk := b }).2
      = (retrain_models cfg st env).2
    ∧ (retrain_models cfg st { env with backupOk := b }).1.performanceHistory
      = (retrain_models cfg st env).1.performanceHistory
    ∧ (retrain_models cfg st { env with backupOk := b }).1.lastRetrainTime
      = (retrain_models cfg st env).1.lastRetrainTime := by
  simp only [retrain_models]
  split_ifs <;> simp_all

/-- Claim C4: a retraining cycle that ends in deploy leaves the
performance history equal to `_update_performance_history` of the old
history with the single new record (exactly one record appended, with
FIFO trimming to 50) and sets `last_retrain_time` to the cycle's `now`;
a cycle that ends in no-deploy (insufficient data, training failure or
validation rejection) leaves both fields exactly as they were; and the
cycle reports success exactly when it deploys. -/
theorem retrain_cycle_frame (cfg : Config) (st : RetrainerState) (env : CycleEnv) :
    (retrain_models cfg st env).1.performanceHistory
      = cond (retrain_models cfg st env).2.deployed
          (update_performance_history st.performanceHistory env.newPerf)
          st.performanceHistory
    ∧ (retrain_models cfg st env).1.lastRetrainTime
      = cond (retrain_models cfg st env).2.deployed env.now st.lastRetrainTime
    ∧ (retrain_models cfg st env).2.success = (retrain_models cfg st env).2.deployed := by
  simp only [retrain_models]
  split_ifs <;> simp

/-- Claim C5: a cycle whose training extract has fewer than 100 records
returns `False` without attempting feature preparation or training, and
leaves the history and `last_retrain_time` untouched; with at least 100
records the cycle reaches `_train_new_models` (which starts with
`_prepare_features`). -/
theorem insufficient_extract_skips (cfg : Config) (st : RetrainerState)
    (env : CycleEnv) :
    (env.trainingDataLen < 100 →
       (retrain_models cfg st env).2.success = false
       ∧ (retrain_models cfg st env).2.trainingAttempted = false
       ∧ (retrain_models cfg st env).1.performanceHistory = st.performanceHistory
       ∧ (retrain_models cfg st env).1.lastRetrainTime = st.lastRetrainTime)
    ∧ (100 ≤ env.trainingDataLen →
       (retrain_models cfg st env).2.trainingAttempted = true) := by
  constructor
  · intro h
    simp [retrain_models, h]
  · intro h
    have h' : ¬ (env.trainingDataLen < 100) := not_lt.mpr h
    simp only [retrain_models]
    split_ifs <;> simp_all

/-- Witness for `insufficient_extract_skips`: an extract of exactly 99
records skips, an extract of 200 records reaches training. -/
theorem insufficient_extract_skips_witness :
    (scenarioEnvSmall.trainingDataLen < 100
     ∧ (retrain_models defaultConfig scenarioState scenarioEnvSmall).2.success = false
     ∧ (retrain_models defaultConfig scenarioState scenarioEnvSmall).2.trainingAttempted = false)
    ∧ (100 ≤ scenarioEnv080.trainingDataLen
      ∧ (retrain_models defaultConfig scenarioState scenarioEnv080).2.trainingAttempted = true) :=
  ⟨⟨by decide,
    ((insufficient_extract_skips defaultConfig scenarioState scenarioEnvSmall).1 (by decide)).1,
    ((insufficient_extract_skips defaultConfig scenarioState scenarioEnvSmall).1 (by decide)).2.1⟩,
   by decide,
   (insufficient_extract_skips defaultConfig scenarioState scenarioEnv080).2 (by decide)⟩

/-- Claim C6 counterexample: starting from a production directory whose
three files all hold old contents (`0`) and a candidate whose three
files all hold new contents (`1`), the state after the first iteration
of the `_deploy_new_models` loop is a production directory with the new
classifier but the old regressor and scaler — a reachable intermediate
state mixing old and new artifacts, distinct from both the initial and
the final production set. -/
theorem deploy_not_atomic_cex :
    (deploy_move_churn
      { temp := { churnModel := some 1, spendingModel := some 1, scaler := some 1 }
        prod := { churnModel := some 0, spendingModel := some 0, scaler := some 0 } }).prod
      = { churnModel := some 1, spendingModel := some 0, scaler := some 0 }
    ∧ ({ churnModel := some 1, spendingModel := some 0, scaler := some 0 } : Artifacts)
        ≠ { churnModel := some 0, spendingModel := some 0, scaler := some 0 }
    ∧ ({ churnModel := some 1, spendingModel := some 0, scaler := some 0 } : Artifacts)
        ≠ (deploy_new_models
            { temp := { churnModel := some 1, spendingModel := some 1, scaler := some 1 }
              prod := { churnModel := some 0, spendingModel := some 0, scaler := some 0 } }).prod := by
  decide

/-- Claim C6 (corrected claim): `_deploy_new_models` replaces the three
artifact files sequentially, one `shutil.move` per file, not atomically:
when all three candidate files exist the final production set equals the
candidate, but whenever at least the classifier and the regressor
actually change, the production state after the first move is a mix —
different from the old production set and from the candidate. -/
theorem deploy_sequential_swap (a b c : ℕ) (prod : Artifacts)
    (h1 : prod.churnModel ≠ some a) (h2 : prod.spendingModel ≠ some b) :
    (deploy_new_models
        { temp := { churnModel := some a, spendingModel := some b, scaler := some c }
          prod := prod }).prod
      = { churnModel := some a, spendingModel := some b, scaler := some c }
    ∧ (deploy_move_churn
        { temp := { churnModel := some a, spendingModel := some b, scaler := some c }
          prod := prod }).prod ≠ prod
    ∧ (deploy_move_churn
        { temp := { churnModel := some a, spendingModel := some b, scaler := some c }
          prod := prod }).prod
        ≠ { churnModel := some a, spendingModel := some b, scaler := some c } := by
  obtain ⟨pc, ps, pk⟩ := prod
  simp only [deploy_new_models, deploy_move_churn, deploy_move_spending,
    deploy_move_scaler, move_model_file] at *
  refine ⟨by trivial, ?_, ?_⟩ <;> simp [Artifacts.mk.injEq] <;> tauto

/-- Witness for `deploy_sequential_swap` with old contents `0` and new
contents `1` in every file. -/
theorem deploy_sequential_swap_witness :
    ((Artifacts.mk (some 0) (some 0) (some 0)).churnModel ≠ some 1
     ∧ (Artifacts.mk (some 0) (some 0) (some 0)).spendingModel ≠ some 1)
    ∧ ((deploy_new_models
          { temp := { churnModel := some 1, spendingModel := some 1, scaler := some 1 }
            prod := Artifacts.mk (some 0) (some 0) (some 0) }).prod
        = { churnModel := some 1, spendingModel := some 1, scaler := some 1 }
      ∧ (deploy_move_churn
          { temp := { churnModel := some 1, spendingModel := some 1, scaler := some 1 }
            prod := Artifacts.mk (some 0) (some 0) (some 0) }).prod
          ≠ Artifacts.mk (some 0) (some 0) (some 0)
      ∧ (deploy_move_churn
          { temp := { churnModel := some 1, spendingModel := some 1, scaler := some 1 }
            prod := Artifacts.mk (some 0) (some 0) (some 0) }).prod
          ≠ { churnModel := some 1, spendingModel := some 1, scaler := some 1 }) :=
  ⟨⟨by decide, by decide⟩,
   deploy_sequential_swap 1 1 1 (Artifacts.mk (some 0) (some 0) (some 0))
     (by decide) (by decide)⟩

/-- Appending one record to the last-50 suffix of a full log yields the
last-50 suffix of the extended full log (helper for the history bound). -/
lemma update_performance_history_lastN (l : List Perf) (p : Perf) :
    update_performance_history (l.drop (l.length - 50)) p
      = (l ++ [p]).drop ((l ++ [p]).length - 50) := by
  by_cases hn : l.length < 50
  · have h0 : l.length - 50 = 0 := by omega
    have h1 : (l ++ [p]).length - 50 = 0 := by
      simp only [List.length_append, List.length_singleton]
      omega
    rw [h0, List.drop_zero, h1, List.drop_zero]
    unfold update_performance_history
    rw [if_neg]
    simp only [List.length_append, List.length_singleton]
    omega
  · have hn' : 50 ≤ l.length := le_of_not_lt hn
    have hd_len : (l.drop (l.length - 50)).length = 50 := by
      simp only [List.length_drop]
      omega
    unfold update_performance_history
    rw [if_pos (by simp only [List.length_append, hd_len, List.length_singleton]; omega)]
    simp only [List.length_append, hd_len, List.length_singleton,
      List.drop_append_eq_append_drop, List.drop_drop, List.length_drop]
    congr 1 <;> congr 1 <;> omega

/-- Iterating `_update_performance_history` from the empty history over
any sequence of records produces exactly the suffix of the last (at
most) 50 records (helper shared with the bound theorem). -/
lemma foldl_update_performance_history (recs : List Perf) :
    List.foldl update_performance_history [] recs
      = recs.drop (recs.length - 50) := by
  induction recs using List.reverseRecOn with
  | nil => simp
  | append_singleton rs r ih =>
      rw [List.foldl_append, List.foldl_cons, List.foldl_nil, ih,
        update_performance_history_lastN]

/-- Claim C7: the performance history is FIFO-bounded at 50 records.
Appending any sequence of records one at a time (starting from the empty
history `self.performance_history = []` set in `__init__`) leaves
exactly the most recent 50 records, the oldest discarded first; the
result never exceeds 50 records; and a single append maps a history of
length `n` to one of length `min (n+1) 50`, so the bound is preserved by
every append. -/
theorem performance_history_bounded (recs : List Perf) (h : List Perf) (p : Perf) :
    List.foldl update_performance_history [] recs = recs.drop (recs.length - 50)
    ∧ (List.foldl update_performance_history [] recs).length ≤ 50
    ∧ (update_performance_history h p).length = min (h.length + 1) 50 := by
  refine ⟨foldl_update_performance_history recs, ?_, ?_⟩
  · rw [foldl_update_performance_history]
    simp only [List.length_drop]
    omega
  · simp only [update_performance_history]
    split_ifs with hc
    · simp only [List.length_drop, List.length_append, List.length_singleton] at *
      omega
    · simp only [List.length_append, List.length_singleton] at *
      omega

/-- Folding the maximum-name selection over entries all older than `t`
ends at the entry named `t` (helper for the restore round trip). -/
lemma backup_foldl_pick (t : ℕ) (prod : Artifacts) :
    ∀ (bs : List (ℕ × Artifacts)) (acc : ℕ × Artifacts), acc.1 < t →
      (∀ e ∈ bs, e.1 < t) →
      List.foldl (fun a x => if a.1 ≤ x.1 then x else a) acc (bs ++ [(t, prod)])
        = (t, prod) := by
  intro bs
  induction bs with
  | nil =>
      intro acc hacc _
      simp [le_of_lt hacc]
  | cons x xs ih =>
      intro acc hacc hmem
      rw [List.cons_append, List.foldl_cons]
      refine ih _ ?_ (fun e he => hmem e (by simp [he]))
      by_cases hax : acc.1 ≤ x.1
      · simpa [hax] using hmem x (by simp)
      · simpa [hax] using hacc

/-- A backup whose timestamp is newer than every existing backup is the
one `sorted(backup_dirs)[-1]` selects (helper for the round trip). -/
lemma latest_backup_append (backups : List (ℕ × Artifacts)) (t : ℕ)
    (prod : Artifacts) (h : ∀ e ∈ backups, e.1 < t) :
    latest_backup (backups ++ [(t, prod)]) = some (t, prod) := by
  cases backups with
  | nil => simp [latest_backup]
  | cons b bs =>
      simp only [List.cons_append, latest_backup, Option.some.injEq]
      exact backup_foldl_pick t prod bs b (h b (by simp))
        (fun e he => h e (by simp [he]))

/-- Claim C8: `_backup_current_models` immediately followed by
`_revert_to_backup`, with no intervening deploy and with the fresh
backup's timestamp newer than every existing backup's, restores the
production artifacts to exactly their prior state (the round trip is the
identity on the production directory: the snapshot copies every
existing production file, the restore selects that snapshot as the
latest backup and copies the same contents back). -/
theorem backup_restore_roundtrip (prod : Artifacts)
    (backups : List (ℕ × Artifacts)) (t : ℕ)
    (h : ∀ e ∈ backups, e.1 < t) :
    revert_to_backup (backup_current_models prod t backups) prod = prod := by
  unfold revert_to_backup backup_current_models
  rw [latest_backup_append backups t prod h]
  obtain ⟨c, s, k⟩ := prod
  cases c <;> cases s <;> cases k <;> rfl

/-- Witness for `backup_restore_roundtrip`: one pre-existing backup
named `1`, fresh backup named `2`, production with an absent
regressor file. -/
theorem backup_restore_roundtrip_witness :
    (∀ e ∈ [((1:ℕ), Artifacts.mk none none none)], e.1 < 2)
    ∧ revert_to_backup
        (backup_current_models (Artifacts.mk (some 3) none (some 5)) 2
          [(1, Artifacts.mk none none none)])
        (Artifacts.mk (some 3) none (some 5))
      = Artifacts.mk (some 3) none (some 5) :=
  ⟨by decide,
   backup_restore_roundtrip (Artifacts.mk (some 3) none (some 5))
     [(1, Artifacts.mk none none none)] 2 (by decide)⟩

end MLRetraining
